import Mathlib

/-!
Verification of the connection/session layer of The Parsian.

The development shallowly embeds the components the claims are about:
the message protocol codec (src/unnamed/part_002, ProtocolManager), the
session server (src/out/server.js, ParsianServer), the request/response
correlator (src/unnamed/part_001, BrowserExtensionManager), and the
reconnecting browser-side client (src/unnamed/part_006, background
script).  Wire payloads are modeled as JSON values; the serialized text
of a message is represented by the JSON value it denotes, since
JSON.stringify and JSON.parse are mutually inverse between JSON values
and their texts.
-/

namespace Parsian

/-! ## JSON value model -/

/-- A JSON value, the shape of every wire payload. -/
inductive Json where
  | null
  | bool (b : Bool)
  | num (n : Int)
  | str (s : String)
  | arr (elems : List Json)
  | obj (fields : List (String × Json))

/-- Whether a JSON value is the JS value null. -/
def Json.isNull : Json → Bool
  | .null => true
  | _ => false

/-- JS strict equality `v === 'lit'` of a property-access result against a
string literal: true exactly when the value is that string. -/
def strictEqStr : Option Json → String → Bool
  | some (.str s), lit => s == lit
  | _, _ => false

/-- JS property access `j[key]` for the payloads the codec inspects:
`none` models the JS value `undefined` (missing property, or property
access on a non-object primitive, which in JS yields undefined rather
than throwing — except on `null`, handled at the call sites). -/
def getField : Json → String → Option Json
  | .obj fields, key => (fields.find? (fun p => p.1 == key)).map (fun p => p.2)
  | _, _ => none

/-- JS `typeof` applied to a property-access result (`none` = undefined). -/
def typeofJs : Option Json → String
  | none => "undefined"
  | some .null => "object"
  | some (.bool _) => "boolean"
  | some (.num _) => "number"
  | some (.str _) => "string"
  | some (.arr _) => "object"
  | some (.obj _) => "object"

/-- JS truthiness of a JSON value. -/
def truthy : Json → Bool
  | .null => false
  | .bool b => b
  | .num n => n != 0
  | .str s => s != ""
  | .arr _ => true
  | .obj _ => true

/-- JS `v || dflt` where the left operand may be an absent (undefined) argument. -/
def jsOr (v : Option Json) (dflt : Json) : Json :=
  match v with
  | some j => if truthy j then j else dflt
  | none => dflt

/-! ## Message protocol codec (ProtocolManager, src/unnamed/part_002) -/

/-- The closed action enumeration of ParsianRequest.action_type. -/
inductive ActionType where
  | codeSuggest
  | explainAction
  | runCommand
deriving DecidableEq, Repr

def ActionType.toWire : ActionType → String
  | .codeSuggest => "CODE_SUGGEST"
  | .explainAction => "EXPLAIN"
  | .runCommand => "RUN_COMMAND"

/-- The status field of ParsianResponse. -/
inductive RespStatus where
  | success
  | error
deriving DecidableEq, Repr

def RespStatus.toWire : RespStatus → String
  | .success => "success"
  | .error => "error"

/-- ProtocolManager.createRequest (part_002 lines 6-14).  The uuid the source
generates is passed in as `id`; `context` is the optional caller argument,
defaulted to `{}` by `context || {}`. -/
def createRequest (id : String) (actionType : ActionType) (userQuery : String)
    (context : Option Json) : Json :=
  .obj [("id", .str id),
        ("system_role", .str "STRICT_JSON_ONLY_MODE"),
        ("action_type", .str actionType.toWire),
        ("context", jsOr context (.obj [])),
        ("user_query", .str userQuery)]

/-- The default data object `{ content: '' }` of createResponse. -/
def defaultData : Json := .obj [("content", .str "")]

/-- The default security object of createResponse. -/
def defaultSecurity : Json :=
  .obj [("requires_confirmation", .bool false), ("confidence", .str "high")]

/-- ProtocolManager.createResponse (part_002 lines 17-27): `data` and
`security` are the optional `any`-typed caller arguments, defaulted by
`data || { content: '' }` and `security || {...}`. -/
def createResponse (requestId : String) (status : RespStatus) (data : Option Json)
    (security : Option Json) : Json :=
  .obj [("request_id", .str requestId),
        ("status", .str status.toWire),
        ("data", jsOr data defaultData),
        ("security", jsOr security defaultSecurity)]

/-- ProtocolManager.validateRequest (part_002 lines 45-55). -/
def validateRequest (j : Json) : Bool :=
  typeofJs (some j) == "object" &&
  typeofJs (getField j "id") == "string" &&
  strictEqStr (getField j "system_role") "STRICT_JSON_ONLY_MODE" &&
  (strictEqStr (getField j "action_type") "CODE_SUGGEST" ||
   strictEqStr (getField j "action_type") "EXPLAIN" ||
   strictEqStr (getField j "action_type") "RUN_COMMAND") &&
  typeofJs (getField j "user_query") == "string"

/-- ProtocolManager.validateResponse (part_002 lines 58-65). -/
def validateResponse (j : Json) : Bool :=
  typeofJs (some j) == "object" &&
  typeofJs (getField j "request_id") == "string" &&
  (strictEqStr (getField j "status") "success" ||
   strictEqStr (getField j "status") "error") &&
  typeofJs (getField j "data") == "object"

/-- The serialized text of a message, represented by the JSON value it denotes
(JSON.stringify and JSON.parse are mutually inverse between JSON values and
their texts). -/
structure Wire where
  val : Json

/-- ProtocolManager.stringifyMessage (part_002 lines 87-89). -/
def stringifyMessage (m : Json) : Wire := ⟨m⟩

/-- ProtocolManager.parseMessage (part_002 lines 68-84): JSON.parse the text,
then try validateRequest, then validateResponse, else null.  For the text
"null" the parsed value is JS null and `validateRequest(null)` throws on the
property access `null.id`; the catch returns null, so the result is `none`. -/
def parseMessage (w : Wire) : Option Json :=
  if w.val.isNull then none
  else if validateRequest w.val then some w.val
  else if validateResponse w.val then some w.val
  else none

/-- The error reply object built by ParsianServer.sendError
(src/out/server.js lines 255-262): `{ request_id, status: 'error', message }`,
with no data field. -/
def sendErrorPayload (requestId message : String) : Json :=
  .obj [("request_id", .str requestId),
        ("status", .str "error"),
        ("message", .str message)]

/-! ## Request/response correlator (BrowserExtensionManager, src/unnamed/part_001)

State of one issued request: whether its entry is still in `pendingRequests`
and whether the timeout timer started by sendRequest is still pending (not
fired and not cleared).  The process is single-threaded and event-driven, so
a complete run of one request interleaves matching-response deliveries with
the one timer firing; the timer fires exactly when it is still active at its
deadline (the stored resolve callback calls clearTimeout, part_001 line 220). -/

structure PendingWaiter where
  registered : Bool
  timerActive : Bool
deriving DecidableEq, Repr

/-- How the promise returned by sendRequest settles. -/
inductive SettleOutcome where
  | resolvedSuccess
  | resolvedError
  | rejectedTimeout
deriving DecidableEq, Repr

/-- State right after sendRequest registers the waiter and starts the timer
(part_001 lines 210-227). -/
def sendRequestWaiterInit : PendingWaiter := ⟨true, true⟩

/-- Delivery of a response with the matching request id (simulateResponse
lines 278-283, and handleIncomingMessage lines 296-302): if the entry is
still registered, delete it and run the stored resolve, which clears the
timer and resolves the promise with the response; otherwise nothing happens. -/
def deliverResponse (st : PendingWaiter) (status : RespStatus) :
    PendingWaiter × List SettleOutcome :=
  if st.registered then
    (⟨false, false⟩,
     [match status with
      | .success => .resolvedSuccess
      | .error => .resolvedError])
  else (st, [])

/-- The timeout callback (part_001 lines 212-215): delete the entry and
reject the promise with a timeout error.  It runs only while the timer is
active (enforced by `runRequest`). -/
def fireTimeout (_st : PendingWaiter) : PendingWaiter × List SettleOutcome :=
  (⟨false, false⟩, [.rejectedTimeout])

/-- Deliver a sequence of matching responses, collecting every settlement. -/
def deliverAll (st : PendingWaiter) (rs : List RespStatus) :
    PendingWaiter × List SettleOutcome :=
  match rs with
  | [] => (st, [])
  | s :: rest =>
    let step := deliverResponse st s
    let next := deliverAll step.1 rest
    (next.1, step.2 ++ next.2)

/-- A complete run of one issued request: the matching responses that arrive
before the timeout deadline, then the timer firing if still active, then the
matching responses that arrive after the deadline.  Returns every settlement
of the request's promise. -/
def runRequest (before after : List RespStatus) : List SettleOutcome :=
  let phase1 := deliverAll sendRequestWaiterInit before
  let phase2 := if phase1.1.timerActive then fireTimeout phase1.1 else (phase1.1, [])
  let phase3 := deliverAll phase2.1 after
  phase1.2 ++ phase2.2 ++ phase3.2

/-! ## Session server handler dispatch (ParsianServer, src/out/server.js) -/

/-- A handler stored in ParsianServer.messageHandlers.  `selfUnregisters`
records whether the handler closure removes its own key via
unregisterMessageHandler when invoked: the chat panel's response handler
does (src/unnamed/part_000 line 267), an arbitrary handler passed to
registerMessageHandler need not. -/
structure MsgHandler where
  selfUnregisters : Bool
deriving DecidableEq, Repr

/-- The messageHandlers JS Map, as an insertion-ordered association list. -/
abbrev HandlerMap := List (String × MsgHandler)

/-- JS Map.get. -/
def handlerGet (m : HandlerMap) (key : String) : Option MsgHandler :=
  (m.find? (fun p => p.1 == key)).map (fun p => p.2)

/-- JS Map.delete (keys are unique in a Map; filtering removes the entry). -/
def handlerDelete (m : HandlerMap) (key : String) : HandlerMap :=
  m.filter (fun p => p.1 != key)

/-- ParsianServer.registerMessageHandler (server.js lines 332-334): Map.set,
which updates in place if the key exists and appends otherwise. -/
def registerMessageHandler (m : HandlerMap) (key : String) (h : MsgHandler) :
    HandlerMap :=
  if m.any (fun p => p.1 == key) then
    m.map (fun p => if p.1 == key then (key, h) else p)
  else m ++ [(key, h)]

/-- The response branch of ParsianServer.handleMessage (server.js lines
158-171): an inbound message carrying request_id looks up the handler
registered under `response_<request_id>` and invokes it.  handleMessage
itself never deletes the entry; the map changes only if the invoked handler
unregisters itself.  Returns the updated map and how many handler
invocations this message caused. -/
def dispatchResponseMessage (m : HandlerMap) (requestId : String) :
    HandlerMap × Nat :=
  let key := "response_" ++ requestId
  match handlerGet m key with
  | some h => (if h.selfUnregisters then handlerDelete m key else m, 1)
  | none => (m, 0)

/-! ## Reconnecting client (background script, src/unnamed/part_006) -/

def MAX_RECONNECT_ATTEMPTS : Nat := 5

/-- Connection-level state of the background script: the reconnect attempt
counter and whether the ERR badge is shown. -/
structure ClientConn where
  reconnectAttempts : Nat
  badgeErr : Bool
deriving DecidableEq, Repr

def initialClient : ClientConn := ⟨0, false⟩

/-- handleDisconnection (part_006 lines 377-393): below the ceiling,
increment the counter and schedule a reconnect after RECONNECT_DELAY; at the
ceiling, stop and show the ERR badge.  Returns the new state and whether a
reconnect was scheduled. -/
def handleDisconnection (st : ClientConn) : ClientConn × Bool :=
  if st.reconnectAttempts < MAX_RECONNECT_ATTEMPTS then
    ({ st with reconnectAttempts := st.reconnectAttempts + 1 }, true)
  else
    ({ st with badgeErr := true }, false)

/-- resetConnectionStatus (part_006 lines 396-399): zero the counter and
clear the badge.  Called only from the socket's onopen handler. -/
def resetConnectionStatus (_st : ClientConn) : ClientConn := ⟨0, false⟩

/-- connectToWebSocket (part_006 lines 228-300): try the candidate ports in
turn; `success` abstracts whether some candidate opened.  On success the
onopen handler runs resetConnectionStatus; on total failure
handleDisconnection runs.  The popup's initiateConnection action (lines
479-485) calls exactly this function and touches nothing else — in
particular it does not reset reconnectAttempts.  Returns the new state and
whether an automatic reconnect was scheduled. -/
def connectToWebSocket (st : ClientConn) (success : Bool) : ClientConn × Bool :=
  if success then (resetConnectionStatus st, false)
  else handleDisconnection st

/-- State after n consecutive failed connection attempts starting from a
fresh background script. -/
def failRun : Nat → ClientConn
  | 0 => initialClient
  | n + 1 => (handleDisconnection (failRun n)).1

/-- Whether the (n+1)-th consecutive failed connection attempt schedules an
automatic reconnect. -/
def scheduledAfterFailure (n : Nat) : Bool := (handleDisconnection (failRun n)).2

/-! ## Pending outbound queue (background script, src/unnamed/part_006) -/

/-- The pendingMessages JS Map: insertion-ordered messageId → serialized
message.  Map.set on an existing key replaces the value but keeps the key's
original position. -/
abbrev PendingQueue := List (String × String)

/-- JS Map.set on pendingMessages. -/
def queueSet (q : PendingQueue) (messageId message : String) : PendingQueue :=
  if q.any (fun p => p.1 == messageId) then
    q.map (fun p => if p.1 == messageId then (messageId, message) else p)
  else q ++ [(messageId, message)]

/-- sendWithRetry (part_006 lines 303-309) when the socket is not open:
`pendingMessages.set(messageId, message)` and return false. -/
def sendWithRetryClosed (q : PendingQueue) (message messageId : String) :
    PendingQueue :=
  queueSet q messageId message

/-- A sequence of sendWithRetry calls made while the socket is closed, given
as (messageId, message) pairs in call order. -/
def enqueueAll (q : PendingQueue) (msgs : List (String × String)) : PendingQueue :=
  msgs.foldl (fun acc p => sendWithRetryClosed acc p.2 p.1) q

/-- sendPendingMessages (part_006 lines 357-374), run from the onopen
handler with every websocket.send succeeding: iterate the Map in insertion
order, send each entry and delete it.  Returns the delivered messages in
order and the queue afterwards. -/
def sendPendingMessages (q : PendingQueue) : List String × PendingQueue :=
  (q.map (fun p => p.2), [])

/-! ## Server start (ParsianServer.start, src/out/server.js lines 19-104) -/

/-- Outcome of the filesystem calls start() makes, one field per call site:
`readLock` is fs.readFileSync(lockFilePath) at line 28, `unlinkStale` the
fs.unlinkSync at line 41 (stale-lock removal), `unlinkOnCatch` the
fs.unlinkSync at line 46 (inside the catch of the lock-reading block), and
`writeLock` the fs.writeFileSync at line 53.  `Except.error` models the call
throwing. -/
structure FsModel where
  lockExists : Bool
  readLock : Except Unit String
  unlinkStale : Except Unit Unit
  unlinkOnCatch : Except Unit Unit
  writeLock : Except Unit Unit

/-- Network-side outcomes for one run of start(): the two findFreePort
results (lines 23 and 35), which ports isPortFree reports as occupied, and
whether the WebSocketServer bind eventually succeeds (the 'listening' versus
'error' event on the server, lines 92-98 — both fire only after start()'s
synchronous body has finished). -/
structure NetModel where
  freePort1 : Nat
  freePort2 : Nat
  portInUse : Nat → Bool
  bindOk : Bool

/-- Observable result of a run of start() that did not reject. -/
structure StartResult where
  port : Nat
  lockWritten : Bool
  bindConfirmed : Bool
deriving DecidableEq, Repr

/-- An error rethrown out of start() by the outer catch (lines 101-104). -/
inductive StartError where
  | fsFailure
deriving DecidableEq, Repr

/-- parseInt(lockFileContent.trim()) at line 29: `none` models NaN. -/
def parsePort (s : String) : Option Nat := s.trim.toNat?

/-- The stale-lock removal at line 41: if unlinkSync throws, control lands
in the catch at line 44, which runs unlinkSync again (line 46); if that also
throws, the error propagates to the outer catch and start() rethrows. -/
def removeStaleLock (fs : FsModel) : Except StartError Unit :=
  match fs.unlinkStale with
  | .ok _ => .ok ()
  | .error _ =>
    match fs.unlinkOnCatch with
    | .ok _ => .ok ()
    | .error _ => .error .fsFailure

/-- The lock-file handling block of start() (lines 26-48), returning the
port the server will bind. -/
def lockCheckPhase (fs : FsModel) (net : NetModel) (port0 : Nat) :
    Except StartError Nat :=
  if fs.lockExists then
    match fs.readLock with
    | .ok content =>
      match parsePort content with
      | some lockPort =>
        if (lockPort != 0) && net.portInUse lockPort then
          .ok (if lockPort == port0 then net.freePort2 else port0)
        else
          (removeStaleLock fs).map (fun _ => port0)
      | none => (removeStaleLock fs).map (fun _ => port0)
    | .error _ =>
      match fs.unlinkOnCatch with
      | .ok _ => .ok port0
      | .error _ => .error .fsFailure
  else .ok port0

/-- ParsianServer.start (lines 19-104).  After the lock check, line 50
constructs the WebSocketServer, which initiates the bind but returns before
its success or failure is known; line 53 then writes the port to the lock
file unconditionally.  A throw from writeFileSync reaches the outer catch
and is rethrown.  `bindConfirmed` records whether the 'listening' event
(line 96) ever fires for this run. -/
def startModel (fs : FsModel) (net : NetModel) : Except StartError StartResult :=
  match lockCheckPhase fs net net.freePort1 with
  | .error e => .error e
  | .ok port =>
    match fs.writeLock with
    | .error _ => .error .fsFailure
    | .ok _ => .ok { port := port, lockWritten := true, bindConfirmed := net.bindOk }

/-- A run with no pre-existing lock file and all filesystem calls succeeding. -/
def fsAllOk : FsModel :=
  { lockExists := false, readLock := .ok "", unlinkStale := .ok (),
    unlinkOnCatch := .ok (), writeLock := .ok () }

/-- A run in which port 8765 is probed free but is seized by another process
before the WebSocketServer binds it, so the bind fails asynchronously. -/
def netBindFails : NetModel :=
  { freePort1 := 8765, freePort2 := 8766, portInUse := fun _ => false, bindOk := false }

/-- A run in which the network side behaves: the bind succeeds. -/
def netAllOk : NetModel :=
  { freePort1 := 8765, freePort2 := 8766, portInUse := fun _ => false, bindOk := true }

/-! ## Peer classification and peer sets (ParsianServer, src/out/server.js) -/

/-- Peer-set state of a ParsianServer: the two client Sets, with sockets
identified by allocation order (each accepted connection is a brand-new
socket object, modeled by the `nextSock` counter). -/
structure SrvState where
  nextSock : Nat
  browserClients : List Nat
  vscodeClients : List Nat
deriving DecidableEq, Repr

def initialServer : SrvState := ⟨0, [], []⟩

/-- The connection handler (server.js lines 56-70): if browserClients.size
is 0 the new socket joins browserClients (automation side), otherwise
vscodeClients (editor side).  Returns the state and whether the socket was
classified automation-side. -/
def handleConnection (st : SrvState) : SrvState × Bool :=
  if st.browserClients.isEmpty then
    ({ st with nextSock := st.nextSock + 1,
               browserClients := st.browserClients ++ [st.nextSock] }, true)
  else
    ({ st with nextSock := st.nextSock + 1,
               vscodeClients := st.vscodeClients ++ [st.nextSock] }, false)

/-- The close handler (lines 76-82) and the error handler (lines 83-89):
both delete the socket from both Sets. -/
def handleSocketClose (st : SrvState) (sock : Nat) : SrvState :=
  { st with browserClients := st.browserClients.filter (fun s => s != sock),
            vscodeClients := st.vscodeClients.filter (fun s => s != sock) }

/-- ParsianServer.stop (lines 106-126): clear both client Sets. -/
def stopServer (st : SrvState) : SrvState :=
  { st with browserClients := [], vscodeClients := [] }

/-- The events that touch the peer sets within one listening epoch. -/
inductive SrvEvent where
  | connect
  | close (sock : Nat)
  | socketError (sock : Nat)
  | stop
deriving DecidableEq, Repr

def srvStep (st : SrvState) : SrvEvent → SrvState
  | .connect => (handleConnection st).1
  | .close s => handleSocketClose st s
  | .socketError s => handleSocketClose st s
  | .stop => stopServer st

/-- The peer-set state reached by a sequence of events from a fresh server. -/
def srvRun (evs : List SrvEvent) : SrvState := evs.foldl srvStep initialServer

/-- The classifications handed out to the next n connections from a given
state, in arrival order. -/
def connectClassifications : Nat → SrvState → List Bool
  | 0, _ => []
  | n + 1, st =>
    (handleConnection st).2 :: connectClassifications n (handleConnection st).1

/-- Invariant of the peer-set state: every tracked socket was allocated
(below the counter) and no socket is in both client sets. -/
def SrvInv (st : SrvState) : Prop :=
  (∀ x ∈ st.browserClients, x < st.nextSock) ∧
  (∀ x ∈ st.vscodeClients, x < st.nextSock) ∧
  (∀ x ∈ st.browserClients, x ∉ st.vscodeClients)

/-! ## Theorems -/

/-- Once the waiter is gone and the timer cleared, further matching
responses settle nothing. -/
theorem deliverAll_settled (rs : List RespStatus) :
    deliverAll ⟨false, false⟩ rs = (⟨false, false⟩, []) := by
  induction rs with
  | nil => rfl
  | cons s rest ih => simp [deliverAll, deliverResponse, ih]

/-- C1: for every request issued through BrowserExtensionManager.sendRequest
with a timeout, exactly one of the three outcomes (resolution with a success
Response, resolution with an error Response, rejection with a timeout error)
occurs — never zero and never two — regardless of how the timeout firing is
ordered with the arrival of Responses carrying the matching request_id. -/
theorem sendRequest_settles_exactly_once (before after : List RespStatus) :
    (runRequest before after).length = 1 := by
  cases before with
  | nil =>
    simp [runRequest, deliverAll, sendRequestWaiterInit, fireTimeout, deliverAll_settled]
  | cons s rest =>
    cases s <;>
      simp [runRequest, deliverAll, deliverResponse, sendRequestWaiterInit,
        deliverAll_settled, fireTimeout]

/-- C10: every error reply built by ParsianServer.sendError lacks a data
field, so ProtocolManager.validateResponse rejects it and
ProtocolManager.parseMessage applied to its serialization returns null. -/
theorem sendError_rejected_by_codec (requestId message : String) :
    validateResponse (sendErrorPayload requestId message) = false ∧
    parseMessage (stringifyMessage (sendErrorPayload requestId message)) = none :=
  ⟨rfl, rfl⟩

/-- C3 counterexample: createResponse called with the string "hello" as its
data argument (the parameter is any-typed) produces a Response whose
serialization parseMessage rejects, so the round trip returns null instead
of the original value. -/
theorem createResponse_roundtrip_counterexample :
    parseMessage (stringifyMessage
      (createResponse "r1" .success (some (.str "hello")) none)) = none := rfl

/-- C3 amended: the round trip holds for every Request produced by
createRequest, and for every Response produced by createResponse whose data
field (after the default `data || { content: '' }`) is of JS type object. -/
theorem createRequest_createResponse_roundtrip
    (id userQuery requestId : String) (a : ActionType)
    (context dat sec : Option Json) (st : RespStatus)
    (hdata : typeofJs (some (jsOr dat defaultData)) = "object") :
    parseMessage (stringifyMessage (createRequest id a userQuery context))
      = some (createRequest id a userQuery context) ∧
    parseMessage (stringifyMessage (createResponse requestId st dat sec))
      = some (createResponse requestId st dat sec) := by
  constructor
  · cases a <;> rfl
  · cases st <;>
      · simp [parseMessage, stringifyMessage, createResponse, validateRequest,
          validateResponse, getField, typeofJs, Json.isNull, strictEqStr,
          RespStatus.toWire]
        exact hdata

/-- C3 witness: the amended round trip at concrete inputs. -/
theorem createRequest_createResponse_roundtrip_witness :
    parseMessage (stringifyMessage (createRequest "a" .codeSuggest "q" none))
      = some (createRequest "a" .codeSuggest "q" none) ∧
    parseMessage (stringifyMessage (createResponse "r" .success none none))
      = some (createResponse "r" .success none none) :=
  createRequest_createResponse_roundtrip "a" "q" "r" .codeSuggest none none none
    .success rfl

/-- Deleting a key from the handler map makes lookups of that key miss. -/
theorem handlerGet_handlerDelete (m : HandlerMap) (key : String) :
    handlerGet (handlerDelete m key) key = none := by
  have hfind : (handlerDelete m key).find? (fun p => p.1 == key) = none := by
    rw [List.find?_eq_none]
    intro x hx
    rcases List.mem_filter.mp hx with ⟨-, hf⟩
    simp only [bne_iff_ne, ne_eq] at hf
    simp [hf]
  show ((handlerDelete m key).find? (fun p => p.1 == key)).map (fun p => p.2) = none
  rw [hfind]
  rfl

/-- C2 counterexample: handleMessage does not deregister the matching
one-shot handler.  With a handler registered under response_r1 that does not
unregister itself, a first inbound message with request_id r1 invokes it,
leaves it registered, and a second inbound message with the same request_id
invokes it again. -/
theorem response_handler_not_deregistered :
    (dispatchResponseMessage [("response_r1", ⟨false⟩)] "r1").2 = 1 ∧
    handlerGet (dispatchResponseMessage [("response_r1", ⟨false⟩)] "r1").1
      "response_r1" = some ⟨false⟩ ∧
    (dispatchResponseMessage
      (dispatchResponseMessage [("response_r1", ⟨false⟩)] "r1").1 "r1").2 = 1 :=
  ⟨rfl, rfl, rfl⟩

/-- C2 amended: the server invokes the handler registered under
response_<request_id> but does not itself deregister it; at-most-once
delivery holds exactly when the handler deregisters itself on invocation, as
the chat panel's response handler does — then a second message with the same
request_id invokes nothing. -/
theorem one_shot_handler_at_most_once (m : HandlerMap) (requestId : String)
    (h : MsgHandler) (hreg : handlerGet m ("response_" ++ requestId) = some h) :
    (dispatchResponseMessage m requestId).2 = 1 ∧
    (h.selfUnregisters = true →
      (dispatchResponseMessage
        (dispatchResponseMessage m requestId).1 requestId).2 = 0) := by
  constructor
  · simp [dispatchResponseMessage, hreg]
  · intro hself
    simp [dispatchResponseMessage, hreg, hself, handlerGet_handlerDelete]

/-- C2 witness: the amended at-most-once property at a concrete map. -/
theorem one_shot_handler_at_most_once_witness :
    (dispatchResponseMessage [("response_r1", ⟨true⟩)] "r1").2 = 1 ∧
    (dispatchResponseMessage
      (dispatchResponseMessage [("response_r1", ⟨true⟩)] "r1").1 "r1").2 = 0 := by
  have h := one_shot_handler_at_most_once [("response_r1", ⟨true⟩)] "r1" ⟨true⟩ rfl
  exact ⟨h.1, h.2 rfl⟩

/-- Closed form of the state after n consecutive failed connection attempts:
the counter climbs to the ceiling and the ERR badge appears only at the
failure after the ceiling is reached. -/
theorem failRun_closed_form (n : Nat) :
    failRun n = ⟨min n MAX_RECONNECT_ATTEMPTS,
                 decide (MAX_RECONNECT_ATTEMPTS < n)⟩ := by
  induction n with
  | zero => rfl
  | succ n ih =>
    rw [failRun, ih]
    simp only [handleDisconnection, MAX_RECONNECT_ATTEMPTS]
    by_cases h : min n 5 < 5
    · simp only [h, if_true]
      have h5 : n < 5 := by omega
      congr 1
      · omega
      · simp only [decide_eq_decide]
        omega
    · simp only [h, if_false]
      have h5 : 5 ≤ n := by omega
      congr 1
      · omega
      · have : 5 < n + 1 := by omega
        simp_all

/-- C4 counterexample: the fifth consecutive failed connection attempt still
schedules an automatic reconnect and reports nothing, so the client has not
stopped after exactly MAX_RECONNECT_ATTEMPTS failures; and a manual
connect() issued after the ceiling (the popup's initiateConnection, which
just calls connectToWebSocket) does not reset the attempt counter — if that
attempt fails the counter is still 5 and no reconnect is scheduled, so
automatic retrying does not resume. -/
theorem backoff_ceiling_counterexample :
    scheduledAfterFailure 4 = true ∧
    (failRun 5).badgeErr = false ∧
    (connectToWebSocket (failRun 5) false).1.reconnectAttempts = 5 ∧
    (connectToWebSocket (failRun 5) false).2 = false :=
  ⟨rfl, rfl, rfl, rfl⟩

/-- C4 amended: a failed connection attempt schedules an automatic reconnect
exactly while fewer than MAX_RECONNECT_ATTEMPTS reconnects have been
scheduled, so the client stops scheduling at the (MAX+1)-th consecutive
failure, which is when the ERR badge is reported; the attempt counter is
reset only by a successful connection (the onopen handler's
resetConnectionStatus), not by a manual connect(). -/
theorem backoff_ceiling_amended :
    (∀ n : Nat, scheduledAfterFailure n = true ↔ n < MAX_RECONNECT_ATTEMPTS) ∧
    (failRun (MAX_RECONNECT_ATTEMPTS + 1)).badgeErr = true ∧
    (∀ st : ClientConn, (connectToWebSocket st true).1 = initialClient) := by
  refine ⟨?_, rfl, fun st => rfl⟩
  intro n
  rw [scheduledAfterFailure, failRun_closed_form]
  simp only [handleDisconnection, MAX_RECONNECT_ATTEMPTS]
  by_cases h : min n 5 < 5
  · simp only [h, if_true]
    constructor
    · intro _; omega
    · intro _; trivial
  · simp only [h, if_false]
    constructor
    · intro hfalse; exact absurd hfalse (by simp)
    · intro hn; exact absurd hn (by omega)

/-- Enqueueing messages whose ids are fresh for the queue and pairwise
distinct appends them in call order. -/
theorem enqueueAll_append (msgs : List (String × String)) (q : PendingQueue)
    (hfresh : ∀ p ∈ msgs, q.any (fun e => e.1 == p.1) = false)
    (hnodup : (msgs.map Prod.fst).Nodup) :
    enqueueAll q msgs = q ++ msgs := by
  induction msgs generalizing q with
  | nil => simp [enqueueAll]
  | cons kv rest ih =>
    have hq : q.any (fun e => e.1 == kv.1) = false :=
      hfresh kv (List.mem_cons_self kv rest)
    have hset : queueSet q kv.1 kv.2 = q ++ [(kv.1, kv.2)] := by
      simp [queueSet, hq]
    have hfresh2 : ∀ p ∈ rest, (q ++ [(kv.1, kv.2)]).any (fun e => e.1 == p.1) = false := by
      intro p hp
      rw [List.any_append]
      have h1 : q.any (fun e => e.1 == p.1) = false :=
        hfresh p (List.mem_cons_of_mem kv hp)
      have h2 : kv.1 ≠ p.1 := by
        have hk : kv.1 ∉ rest.map Prod.fst := (List.nodup_cons.mp hnodup).1
        intro heq
        exact hk (heq ▸ List.mem_map_of_mem Prod.fst hp)
      simp [h1, h2]
    have hnodup2 : (rest.map Prod.fst).Nodup := (List.nodup_cons.mp hnodup).2
    calc enqueueAll q (kv :: rest)
        = enqueueAll (queueSet q kv.1 kv.2) rest := rfl
      _ = enqueueAll (q ++ [(kv.1, kv.2)]) rest := by rw [hset]
      _ = (q ++ [(kv.1, kv.2)]) ++ rest := ih _ hfresh2 hnodup2
      _ = q ++ (kv :: rest) := by simp

/-- C5 counterexample: two messages queued while the socket is closed under
the same messageId (the ids are built from Date.now(), so two same-kind
messages in one millisecond collide); the Map.set overwrite drops the first
message, which is never delivered although it never exceeded any retry
ceiling. -/
theorem queue_drop_on_id_collision :
    (sendPendingMessages (enqueueAll [] [("id1", "m1"), ("id1", "m2")])).1
      = ["m2"] ∧
    "m1" ∉ (sendPendingMessages (enqueueAll [] [("id1", "m1"), ("id1", "m2")])).1 := by
  constructor
  · rfl
  · decide

/-- C5 amended: provided the messageIds of the messages queued while the
socket is closed are pairwise distinct, the flush on the next transition to
open (with sends succeeding) delivers exactly those messages, once each, in
the FIFO order in which they were enqueued, and empties the queue. -/
theorem queue_drained_fifo_exactly_once (msgs : List (String × String))
    (hnodup : (msgs.map Prod.fst).Nodup) :
    (sendPendingMessages (enqueueAll [] msgs)).1 = msgs.map Prod.snd ∧
    (sendPendingMessages (enqueueAll [] msgs)).2 = [] := by
  have h := enqueueAll_append msgs [] (fun p _ => rfl) hnodup
  rw [List.nil_append] at h
  rw [h]
  exact ⟨rfl, rfl⟩

/-- C5 witness: the amended FIFO drain at a concrete queue. -/
theorem queue_drained_fifo_exactly_once_witness :
    (sendPendingMessages (enqueueAll [] [("a", "x"), ("b", "y")])).1 = ["x", "y"] ∧
    (sendPendingMessages (enqueueAll [] [("a", "x"), ("b", "y")])).2 = [] :=
  queue_drained_fifo_exactly_once [("a", "x"), ("b", "y")] (by decide)

/-- C6: start() writes the port to the lock file although the bind it
publishes has not succeeded.  In the run where the probed port is seized by
another process before the WebSocketServer binds it, the bind fails (the
'error' event fires after start() returns), yet start() resolves having
written the lock file: no successful bind preceded the lock-file write. -/
theorem lock_written_without_successful_bind :
    startModel fsAllOk netBindFails
      = .ok { port := 8765, lockWritten := true, bindConfirmed := false } := rfl

/-- C7 counterexample: a filesystem error during start()'s lock handling is
fatal on two paths — a throw from the lock-file write (line 53) reaches the
outer catch and is rethrown, and a throw while reading the lock whose
recovery unlink (line 46) also throws likewise propagates — so start()
rejects because of a lock-file filesystem error. -/
theorem lockfile_error_fatal :
    startModel { lockExists := false, readLock := .ok "", unlinkStale := .ok (),
                 unlinkOnCatch := .ok (), writeLock := .error () } netAllOk
      = .error .fsFailure ∧
    startModel { lockExists := true, readLock := .error (), unlinkStale := .ok (),
                 unlinkOnCatch := .error (), writeLock := .ok () } netAllOk
      = .error .fsFailure :=
  ⟨rfl, rfl⟩

/-- C7 amended: filesystem errors while reading the lock file (and from the
first, stale-removal unlink) are non-fatal — the lock is treated as stale
and removed, and start() proceeds to bind and publish — provided the
recovery unlink inside the catch succeeds and the lock-file write itself
succeeds; errors from those two calls propagate and start() rejects. -/
theorem lockfile_read_errors_nonfatal (fs : FsModel) (net : NetModel)
    (hcatch : fs.unlinkOnCatch = .ok ()) (hwrite : fs.writeLock = .ok ()) :
    ∃ r : StartResult, startModel fs net = .ok r ∧ r.lockWritten = true := by
  obtain ⟨le, rl, us, uc, wl⟩ := fs
  simp only at hcatch hwrite
  subst hcatch hwrite
  have hstale : removeStaleLock ⟨le, rl, us, .ok (), .ok ()⟩ = .ok () := by
    cases us with
    | ok u => cases u; rfl
    | error e => cases e; rfl
  have hlock : ∃ p, lockCheckPhase ⟨le, rl, us, .ok (), .ok ()⟩ net net.freePort1
      = .ok p := by
    cases le with
    | false => exact ⟨net.freePort1, rfl⟩
    | true =>
      cases rl with
      | error e => exact ⟨net.freePort1, rfl⟩
      | ok content =>
        simp only [lockCheckPhase]
        cases parsePort content with
        | none => rw [hstale]; exact ⟨net.freePort1, rfl⟩
        | some lockPort =>
          by_cases hcond : ((lockPort != 0) && net.portInUse lockPort) = true
          · simp only [hcond, if_true]
            exact ⟨_, rfl⟩
          · simp only [Bool.not_eq_true] at hcond
            simp only [hcond, if_false]
            rw [hstale]
            exact ⟨net.freePort1, rfl⟩
  obtain ⟨p, hp⟩ := hlock
  refine ⟨{ port := p, lockWritten := true, bindConfirmed := net.bindOk }, ?_, rfl⟩
  simp only [startModel, hp]

/-- C7 witness: the amended non-fatality at a concrete run whose lock read
throws. -/
theorem lockfile_read_errors_nonfatal_witness :
    ∃ r : StartResult,
      startModel { lockExists := true, readLock := .error (), unlinkStale := .ok (),
                   unlinkOnCatch := .ok (), writeLock := .ok () } netAllOk
        = .ok r ∧ r.lockWritten = true :=
  lockfile_read_errors_nonfatal
    { lockExists := true, readLock := .error (), unlinkStale := .ok (),
      unlinkOnCatch := .ok (), writeLock := .ok () } netAllOk rfl rfl

/-- C8 counterexample: in the epoch whose first connection (socket 0) was
classified automation-side and then disconnected, the next connection — the
second to arrive in that epoch — is classified automation-side again, not
editor-side, so classification does not depend only on arrival order. -/
theorem second_connection_classified_browser :
    (srvRun [SrvEvent.connect, SrvEvent.close 0]).nextSock = 1 ∧
    (handleConnection (srvRun [SrvEvent.connect, SrvEvent.close 0])).2 = true :=
  ⟨rfl, rfl⟩

/-- C8 amended: a connection is classified automation-side exactly when the
automation-side set is empty at its arrival; consequently, within an epoch
in which no peer disconnects, the first connection is automation-side and
every subsequent one is editor-side. -/
theorem role_from_empty_browser_set :
    (∀ st : SrvState, (handleConnection st).2 = st.browserClients.isEmpty) ∧
    (∀ n : Nat, connectClassifications (n + 1) initialServer
      = true :: List.replicate n false) := by
  constructor
  · intro st
    by_cases h : st.browserClients.isEmpty <;> simp [handleConnection, h]
  · intro n
    have key : ∀ (k : Nat) (st : SrvState), st.browserClients.isEmpty = false →
        connectClassifications k st = List.replicate k false := by
      intro k
      induction k with
      | zero => intro st _; rfl
      | succ k ih =>
        intro st h
        rw [connectClassifications, List.replicate]
        have hne : (handleConnection st).1.browserClients.isEmpty = false := by
          simp [handleConnection, h]
        rw [ih _ hne]
        simp [handleConnection, h]
    rw [connectClassifications]
    have h0 : (handleConnection initialServer).2 = true := rfl
    have h1 : (handleConnection initialServer).1.browserClients.isEmpty = false := rfl
    rw [h0, key n _ h1]

/-- Each event handler preserves the peer-set invariant. -/
theorem srvStep_preserves_inv (st : SrvState) (ev : SrvEvent) (h : SrvInv st) :
    SrvInv (srvStep st ev) := by
  obtain ⟨hb, hv, hd⟩ := h
  cases ev with
  | connect =>
    show SrvInv (handleConnection st).1
    by_cases hbe : st.browserClients.isEmpty
    · have hstate : (handleConnection st).1
          = { st with nextSock := st.nextSock + 1,
                      browserClients := st.browserClients ++ [st.nextSock] } := by
        simp [handleConnection, hbe]
      rw [hstate]
      refine ⟨?_, ?_, ?_⟩
      · intro x hx
        rcases List.mem_append.mp hx with hx | hx
        · exact Nat.lt_succ_of_lt (hb x hx)
        · have := List.mem_singleton.mp hx
          show x < st.nextSock + 1
          omega
      · intro x hx
        exact Nat.lt_succ_of_lt (hv x hx)
      · intro x hx
        rcases List.mem_append.mp hx with hx | hx
        · exact hd x hx
        · have hxe := List.mem_singleton.mp hx
          subst hxe
          intro hmem
          exact absurd (hv _ hmem) (lt_irrefl _)
    · have hstate : (handleConnection st).1
          = { st with nextSock := st.nextSock + 1,
                      vscodeClients := st.vscodeClients ++ [st.nextSock] } := by
        simp [handleConnection, hbe]
      rw [hstate]
      refine ⟨?_, ?_, ?_⟩
      · intro x hx
        exact Nat.lt_succ_of_lt (hb x hx)
      · intro x hx
        rcases List.mem_append.mp hx with hx | hx
        · exact Nat.lt_succ_of_lt (hv x hx)
        · have := List.mem_singleton.mp hx
          show x < st.nextSock + 1
          omega
      · intro x hx
        intro hmem
        rcases List.mem_append.mp hmem with hm | hm
        · exact hd x hx hm
        · have hxe := List.mem_singleton.mp hm
          exact absurd (hb x hx) (hxe ▸ lt_irrefl _)
  | close s =>
    refine ⟨?_, ?_, ?_⟩
    · intro x hx
      exact hb x (List.mem_of_mem_filter hx)
    · intro x hx
      exact hv x (List.mem_of_mem_filter hx)
    · intro x hx hmem
      exact hd x (List.mem_of_mem_filter hx) (List.mem_of_mem_filter hmem)
  | socketError s =>
    refine ⟨?_, ?_, ?_⟩
    · intro x hx
      exact hb x (List.mem_of_mem_filter hx)
    · intro x hx
      exact hv x (List.mem_of_mem_filter hx)
    · intro x hx hmem
      exact hd x (List.mem_of_mem_filter hx) (List.mem_of_mem_filter hmem)
  | stop =>
    refine ⟨?_, ?_, ?_⟩ <;> intro x hx <;>
      simp [srvStep, stopServer] at hx

/-- The invariant holds at every reachable peer-set state. -/
theorem srvRun_inv (evs : List SrvEvent) : SrvInv (srvRun evs) := by
  have hinit : SrvInv initialServer := by
    refine ⟨?_, ?_, ?_⟩ <;> intro x hx <;> simp [initialServer] at hx
  suffices h : ∀ st : SrvState, SrvInv st → SrvInv (evs.foldl srvStep st) from
    h initialServer hinit
  induction evs with
  | nil => intro st h; exact h
  | cons e rest ih =>
    intro st h
    exact ih _ (srvStep_preserves_inv st e h)

/-- C9: at every reachable state of a ParsianServer, the browserClients and
vscodeClients sets are disjoint — each accepted socket is added to exactly
one set, close and error remove it from both, and stop empties both. -/
theorem browser_vscode_clients_disjoint (evs : List SrvEvent) :
    ∀ x ∈ (srvRun evs).browserClients, x ∉ (srvRun evs).vscodeClients :=
  (srvRun_inv evs).2.2

/-- C9 witness: disjointness at a concrete reachable state in which both
sets are inhabited. -/
theorem browser_vscode_clients_disjoint_witness :
    0 ∈ (srvRun [SrvEvent.connect, SrvEvent.connect]).browserClients ∧
    0 ∉ (srvRun [SrvEvent.connect, SrvEvent.connect]).vscodeClients :=
  ⟨by decide,
   browser_vscode_clients_disjoint [SrvEvent.connect, SrvEvent.connect] 0 (by decide)⟩

end Parsian
